import Mathlib

/-!
# nullcursor: embedding of `nullcursor.c`

The program talks to the X server through libxcb.  Every libxcb call that
returns something to the program is an oracle of the `World`; every request
the program hands to libxcb is appended to the connection's list of sent
requests, so that a run is a pure function from a `World` to an outcome and
the ordered list of requests.
-/

namespace Nullcursor

/-! ## Data model -/

/-- The two fields of `xcb_generic_error_t` that `err_xcb` reads. -/
structure xcb_generic_error_t where
  major_code : Nat
  minor_code : Nat
deriving DecidableEq

/-- The fields of `xcb_screen_t` that the program reads. -/
structure xcb_screen_t where
  root : Nat
  default_colormap : Nat
  white_pixel : Nat
deriving DecidableEq

/-- One colour of a QueryColors reply (`xcb_rgb_t`). -/
structure xcb_rgb_t where
  red : Nat
  green : Nat
  blue : Nat
deriving DecidableEq

/-- The colour array carried by a QueryColors reply, as read through
`xcb_query_colors_colors`. -/
structure xcb_query_colors_reply_t where
  colors : List xcb_rgb_t
deriving DecidableEq

/-- Which libxcb entry point issued a request: `xcb_foo` (`plain`) or
`xcb_foo_checked` (`checked`). -/
inductive Form where
  | plain
  | checked
deriving DecidableEq

/-- The calls on the connection that the program makes, with the arguments in
the order of the libxcb prototypes (the connection argument left out).
`disconnect` is the call of `xcb_disconnect`. -/
inductive Request where
  | create_pixmap (form : Form) (depth pid drawable width height : Nat)
  | create_gc (form : Form) (cid drawable value_mask : Nat) (value_list : List Nat)
  | put_image (form : Form) (format drawable gc width height dst_x dst_y left_pad depth
      data_len : Nat) (data : List Nat)
  | query_colors (form : Form) (cmap pixels_len : Nat) (pixels : List Nat)
  | create_cursor (form : Form) (cid source mask fore_red fore_green fore_blue
      back_red back_green back_blue x y : Nat)
  | free_gc (form : Form) (gc : Nat)
  | free_pixmap (form : Form) (pixmap : Nat)
  | change_window_attributes (form : Form) (window value_mask : Nat) (value_list : List Nat)
  | free_cursor (form : Form) (cursor : Nat)
  | disconnect
deriving DecidableEq

/-- Which of the two `err.h` functions printed the diagnostic: `err` appends
the text of `errno` to the message, `errx` does not. -/
inductive ErrFn where
  | err
  | errx
deriving DecidableEq

/-- A diagnostic written to the standard error stream: the reporting function
and the message produced from its format string and arguments. -/
structure Diagnostic where
  fn : ErrFn
  message : String
deriving DecidableEq

/-- How the process ends: by `exit`/`return` with a status (and the diagnostic
printed, if any), or by reading through a pointer that does not point to a
colour (a null reply, or a reply with an empty colour array). -/
inductive Outcome where
  | exit (status : Nat) (diag : Option Diagnostic)
  | invalid_read
deriving DecidableEq

/-- What libxcb and the process environment answer during one run.
`request_check k` is what `xcb_request_check` returns for the cookie of the
`k`-th request sent on the connection (counted from 1), `query_colors_reply k`
the reply pointer and the error pointer that `xcb_query_colors_reply` yields
for cookie `k`, `generate_id n` the result of the call of `xcb_generate_id`
made after `n` earlier ones. The program learns of a rejected request only
through the error object that one of these calls returns. -/
structure World where
  connection_has_error : Bool
  default_screen : Nat
  aux_get_screen : Nat → Option xcb_screen_t
  getenv_DISPLAY : Option String
  generate_id : Nat → Nat
  request_check : Nat → Option xcb_generic_error_t
  query_colors_reply : Nat → Option xcb_query_colors_reply_t × Option xcb_generic_error_t
  big_endian : Bool

/-- The state of the connection as far as the program can affect it: the
requests sent so far, oldest first, and how many identifiers were generated. -/
structure Conn where
  sent : List Request
  ids : Nat
deriving DecidableEq

/-- The result of running a function of the program: it returns a value, or
the process has ended inside it. -/
inductive Res (α : Type) where
  | ret (a : α) (conn : Conn)
  | halt (o : Outcome) (conn : Conn)

/-- Sequencing of two program fragments; a fragment that ended the process
ends the whole. -/
@[simp]
def Res.bind {α β : Type} (r : Res α) (k : α → Conn → Res β) : Res β :=
  match r with
  | Res.ret a conn => k a conn
  | Res.halt o conn => Res.halt o conn

/-- The requests sent when the fragment is over. -/
@[simp]
def Res.sent {α : Type} (r : Res α) : List Request :=
  match r with
  | Res.ret _ conn => conn.sent
  | Res.halt _ conn => conn.sent

/-! ## Constants of `xproto.h` -/

/-- The enumerator `XCB_IMAGE_FORMAT_XY_BITMAP` of `xcb_image_format_t`. -/
def XCB_IMAGE_FORMAT_XY_BITMAP : Nat := 0

/-- The enumerator `XCB_CW_CURSOR` of `xcb_cw_t`: bit 14 of the window
attribute mask. -/
def XCB_CW_CURSOR : Nat := 16384

/-! ## The libxcb calls -/

/-- Appends a request to the connection; the cookie is its sequence number. -/
@[simp]
def send (conn : Conn) (r : Request) : Nat × Conn :=
  (conn.sent.length + 1, { conn with sent := conn.sent ++ [r] })

@[simp]
def xcb_connect (_w : World) : Conn := { sent := [], ids := 0 }

@[simp]
def xcb_generate_id (w : World) (conn : Conn) : Nat × Conn :=
  (w.generate_id conn.ids, { conn with ids := conn.ids + 1 })

@[simp]
def xcb_request_check (w : World) (_conn : Conn) (cookie : Nat) : Option xcb_generic_error_t :=
  w.request_check cookie

@[simp]
def xcb_create_pixmap (conn : Conn) (depth pid drawable width height : Nat) : Nat × Conn :=
  send conn (Request.create_pixmap Form.plain depth pid drawable width height)

@[simp]
def xcb_create_gc (conn : Conn) (cid drawable value_mask : Nat) (value_list : List Nat) :
    Nat × Conn :=
  send conn (Request.create_gc Form.plain cid drawable value_mask value_list)

@[simp]
def xcb_put_image (conn : Conn) (format drawable gc width height dst_x dst_y left_pad depth
    data_len : Nat) (data : List Nat) : Nat × Conn :=
  send conn (Request.put_image Form.plain format drawable gc width height dst_x dst_y left_pad
    depth data_len (data.take data_len))

@[simp]
def xcb_query_colors (conn : Conn) (cmap pixels_len : Nat) (pixels : List Nat) : Nat × Conn :=
  send conn (Request.query_colors Form.plain cmap pixels_len (pixels.take pixels_len))

@[simp]
def xcb_query_colors_reply (w : World) (_conn : Conn) (cookie : Nat) :
    Option xcb_query_colors_reply_t × Option xcb_generic_error_t :=
  w.query_colors_reply cookie

@[simp]
def xcb_create_cursor (conn : Conn) (cid source mask fore_red fore_green fore_blue
    back_red back_green back_blue x y : Nat) : Nat × Conn :=
  send conn (Request.create_cursor Form.plain cid source mask fore_red fore_green fore_blue
    back_red back_green back_blue x y)

@[simp]
def xcb_free_gc_checked (conn : Conn) (gc : Nat) : Nat × Conn :=
  send conn (Request.free_gc Form.checked gc)

@[simp]
def xcb_free_pixmap_checked (conn : Conn) (pixmap : Nat) : Nat × Conn :=
  send conn (Request.free_pixmap Form.checked pixmap)

@[simp]
def xcb_change_window_attributes (conn : Conn) (window value_mask : Nat)
    (value_list : List Nat) : Nat × Conn :=
  send conn (Request.change_window_attributes Form.plain window value_mask value_list)

@[simp]
def xcb_free_cursor_checked (conn : Conn) (cursor : Nat) : Nat × Conn :=
  send conn (Request.free_cursor Form.checked cursor)

@[simp]
def xcb_disconnect (conn : Conn) : Conn :=
  { conn with sent := conn.sent ++ [Request.disconnect] }

/-- The bytes of a `uint32_t` object in memory, in the byte order of the host. -/
def uint32_bytes (big_endian : Bool) (v : Nat) : List Nat :=
  let le := [v % 256, v / 256 % 256, v / 65536 % 256, v / 16777216 % 256]
  if big_endian then le.reverse else le

/-- The `uint32_t` whose bytes in memory are the given ones. -/
def uint32_of_bytes (big_endian : Bool) (bs : List Nat) : Nat :=
  (if big_endian then bs else bs.reverse).foldl (fun acc b => acc * 256 + b) 0

/-- What `printf` writes for a `%s` argument (glibc writes `(null)` for a null
pointer). -/
def printf_s (s : Option String) : String :=
  match s with
  | some t => t
  | none => "(null)"

/-! ## The program -/

/-- The function `err_xcb`: `err(retcode, "%s: %d:%d", msg, minor, major)`. -/
@[simp]
def err_xcb {α : Type} (retcode : Nat) (msg : String) (xerr : xcb_generic_error_t)
    (conn : Conn) : Res α :=
  Res.halt (Outcome.exit retcode (some
    { fn := ErrFn.err
      message := msg ++ ": " ++ toString xerr.minor_code ++ ":" ++ toString xerr.major_code }))
    conn

@[simp]
def create_1x1x1_pixmap (w : World) (conn : Conn) (screen : xcb_screen_t) : Res Nat :=
  let (pixmap_id, conn) := xcb_generate_id w conn
  let (c, conn) := xcb_create_pixmap conn 1 pixmap_id screen.root 1 1
  match xcb_request_check w conn c with
  | some e => err_xcb 1 "xcb_create_pixmap" e conn
  | none => Res.ret pixmap_id conn

@[simp]
def create_gc_for_pixmap (w : World) (conn : Conn) (pixmap : Nat) : Res Nat :=
  let (gc_id, conn) := xcb_generate_id w conn
  let (c, conn) := xcb_create_gc conn gc_id pixmap 0 []
  match xcb_request_check w conn c with
  | some e => err_xcb 1 "xcb_create_gc" e conn
  | none => Res.ret gc_id conn

@[simp]
def fill_pixmap (w : World) (conn : Conn) (pixmap gc pixel : Nat) : Res Unit :=
  let (c, conn) := xcb_put_image conn XCB_IMAGE_FORMAT_XY_BITMAP pixmap gc 1 1 0 0 0 1 4
    (uint32_bytes w.big_endian (pixel % 4294967296))
  match xcb_request_check w conn c with
  | some e => err_xcb 1 "xcb_put_image" e conn
  | none => Res.ret () conn

@[simp]
def query_white_color (w : World) (conn : Conn) (screen : xcb_screen_t) : Res xcb_rgb_t :=
  let pixels := [screen.white_pixel]
  let (qcc, conn) := xcb_query_colors conn screen.default_colormap 1 pixels
  let (colors_rep, e) := xcb_query_colors_reply w conn qcc
  match e with
  | some e => err_xcb 1 "xcb_query_colors" e conn
  | none =>
    match colors_rep with
    | none => Res.halt Outcome.invalid_read conn
    | some rep =>
      match rep.colors with
      | [] => Res.halt Outcome.invalid_read conn
      | color :: _ => Res.ret color conn

@[simp]
def create_null_cursor (w : World) (conn : Conn) (screen : xcb_screen_t) : Res Nat :=
  (create_1x1x1_pixmap w conn screen).bind fun pixmap conn =>
  (create_gc_for_pixmap w conn pixmap).bind fun gc conn =>
  (fill_pixmap w conn pixmap gc screen.white_pixel).bind fun _ conn =>
  (query_white_color w conn screen).bind fun color conn =>
  let (cursor_id, conn) := xcb_generate_id w conn
  let (c, conn) := xcb_create_cursor conn cursor_id pixmap pixmap
    color.red color.green color.blue color.red color.green color.blue 0 0
  match xcb_request_check w conn c with
  | some e => err_xcb 1 "xcb_create_cursor" e conn
  | none =>
    let (_, conn) := xcb_free_gc_checked conn gc
    let (_, conn) := xcb_free_pixmap_checked conn pixmap
    Res.ret cursor_id conn

@[simp]
def set_root_cursor (w : World) (conn : Conn) (screen : xcb_screen_t) (cursor : Nat) :
    Res Unit :=
  let cw_mask := XCB_CW_CURSOR
  let cw_list := [cursor]
  let (c, conn) := xcb_change_window_attributes conn screen.root cw_mask cw_list
  match xcb_request_check w conn c with
  | some e => err_xcb 1 "xcb_change_window_attributes" e conn
  | none => Res.ret () conn

/-- The function `main`; the value returned is the argument of `return`. -/
def main (w : World) : Res Nat :=
  let conn := xcb_connect w
  if w.connection_has_error then
    Res.halt (Outcome.exit 1 (some
      { fn := ErrFn.errx
        message := "nullcursor: cannot open display " ++ printf_s w.getenv_DISPLAY })) conn
  else
    match w.aux_get_screen w.default_screen with
    | none =>
      Res.halt (Outcome.exit 1 (some
        { fn := ErrFn.errx, message := "nullcursor: cannot obtain default screen" })) conn
    | some screen =>
      (create_null_cursor w conn screen).bind fun cursor conn =>
      (set_root_cursor w conn screen cursor).bind fun _ conn =>
      let (_, conn) := xcb_free_cursor_checked conn cursor
      let conn := xcb_disconnect conn
      Res.ret 0 conn

/-- How the process started by `main` ends. -/
def outcome (w : World) : Outcome :=
  match main w with
  | Res.ret status _ => Outcome.exit status none
  | Res.halt o _ => o

/-- The requests the process sends, in the order it sends them. -/
def trace (w : World) : List Request := (main w).sent

/-- The exit status of the process, when it ends by exiting. -/
def exit_status (w : World) : Option Nat :=
  match outcome w with
  | Outcome.exit status _ => some status
  | Outcome.invalid_read => none

/-! ## Vocabulary of the properties -/

/-- The name of a request, without its arguments. -/
inductive Kind where
  | create_pixmap
  | create_gc
  | put_image
  | query_colors
  | create_cursor
  | free_gc
  | free_pixmap
  | change_window_attributes
  | free_cursor
  | disconnect
deriving DecidableEq

def Request.kind : Request → Kind
  | Request.create_pixmap .. => Kind.create_pixmap
  | Request.create_gc .. => Kind.create_gc
  | Request.put_image .. => Kind.put_image
  | Request.query_colors .. => Kind.query_colors
  | Request.create_cursor .. => Kind.create_cursor
  | Request.free_gc .. => Kind.free_gc
  | Request.free_pixmap .. => Kind.free_pixmap
  | Request.change_window_attributes .. => Kind.change_window_attributes
  | Request.free_cursor .. => Kind.free_cursor
  | Request.disconnect => Kind.disconnect

/-- The entry point through which a request was issued (`xcb_disconnect` has
only one). -/
def Request.form : Request → Option Form
  | Request.create_pixmap f .. => some f
  | Request.create_gc f .. => some f
  | Request.put_image f .. => some f
  | Request.query_colors f .. => some f
  | Request.create_cursor f .. => some f
  | Request.free_gc f .. => some f
  | Request.free_pixmap f .. => some f
  | Request.change_window_attributes f .. => some f
  | Request.free_cursor f .. => some f
  | Request.disconnect => none

/-- The order of requests that the specification gives for a run without
failure. -/
def program_order : List Kind :=
  [Kind.create_pixmap, Kind.create_gc, Kind.put_image, Kind.query_colors, Kind.create_cursor,
   Kind.free_gc, Kind.free_pixmap, Kind.change_window_attributes, Kind.free_cursor,
   Kind.disconnect]

/-- The steps of the run whose result the program examines. -/
inductive Step where
  | connect
  | screen_lookup
  | create_pixmap
  | create_gc
  | put_image
  | query_colors
  | create_cursor
  | change_window_attributes
deriving DecidableEq

def Step.index : Step → Nat
  | Step.connect => 0
  | Step.screen_lookup => 1
  | Step.create_pixmap => 2
  | Step.create_gc => 3
  | Step.put_image => 4
  | Step.query_colors => 5
  | Step.create_cursor => 6
  | Step.change_window_attributes => 7

/-- The request that a step issues; the first two steps issue none. -/
def Step.kind : Step → Option Kind
  | Step.connect => none
  | Step.screen_lookup => none
  | Step.create_pixmap => some Kind.create_pixmap
  | Step.create_gc => some Kind.create_gc
  | Step.put_image => some Kind.put_image
  | Step.query_colors => some Kind.query_colors
  | Step.create_cursor => some Kind.create_cursor
  | Step.change_window_attributes => some Kind.change_window_attributes

/-- The sequence number of the request of a step, which is the number of
requests sent once the step is over: the place of its request in
`program_order`, and 0 for the two steps before the first request. -/
def Step.sequence (s : Step) : Nat :=
  match s.kind with
  | none => 0
  | some k => program_order.indexOf k + 1

/-- The first argument of `err_xcb` at the check of a step. -/
def Step.request_name : Step → Option String
  | Step.connect => none
  | Step.screen_lookup => none
  | Step.create_pixmap => some "xcb_create_pixmap"
  | Step.create_gc => some "xcb_create_gc"
  | Step.put_image => some "xcb_put_image"
  | Step.query_colors => some "xcb_query_colors"
  | Step.create_cursor => some "xcb_create_cursor"
  | Step.change_window_attributes => some "xcb_change_window_attributes"

/-- The error object that libxcb hands to the program for the request of a
step: the result of `xcb_request_check` on its cookie, and for the colour
query the error pointer set by `xcb_query_colors_reply`. -/
def Step.error (w : World) (s : Step) : Option xcb_generic_error_t :=
  match s with
  | Step.connect => none
  | Step.screen_lookup => none
  | Step.query_colors => (w.query_colors_reply s.sequence).2
  | _ => w.request_check s.sequence

/-- The step reports a failure to the program: the connection has its error
flag set, the screen lookup yields a null pointer, or an error object comes
back for the request. -/
def Step.fails (w : World) (s : Step) : Bool :=
  match s with
  | Step.connect => w.connection_has_error
  | Step.screen_lookup => (w.aux_get_screen w.default_screen).isNone
  | _ => (s.error w).isSome

/-- The step yields what the program goes on with: no failure is reported
and, for the colour query, a reply holding at least one colour is there. -/
def Step.succeeds (w : World) (s : Step) : Bool :=
  match s with
  | Step.connect => !w.connection_has_error
  | Step.screen_lookup => (w.aux_get_screen w.default_screen).isSome
  | Step.query_colors =>
    (s.error w).isNone &&
      match (w.query_colors_reply s.sequence).1 with
      | some rep => !rep.colors.isEmpty
      | none => false
  | _ => (s.error w).isNone

/-- The step reports a failure and every step before it succeeded. -/
def Step.first_to_fail (w : World) (s : Step) : Prop :=
  s.fails w = true ∧ ∀ t : Step, t.index < s.index → t.succeeds w = true

/-- Every step succeeds. -/
def World.all_succeed (w : World) : Prop :=
  ∀ s : Step, s.succeeds w = true

/-- The requests that a fragment started on `before` has added. -/
def issued_by {α : Type} (before : Conn) (r : Res α) : List Request :=
  r.sent.drop before.sent.length

/-- The requests of a run in which nothing fails, for the screen found and
the first colour of the reply. -/
def full_trace (w : World) (screen : xcb_screen_t) (color : xcb_rgb_t) : List Request :=
  [ Request.create_pixmap Form.plain 1 (w.generate_id 0) screen.root 1 1,
    Request.create_gc Form.plain (w.generate_id 1) (w.generate_id 0) 0 [],
    Request.put_image Form.plain XCB_IMAGE_FORMAT_XY_BITMAP (w.generate_id 0) (w.generate_id 1)
      1 1 0 0 0 1 4 ((uint32_bytes w.big_endian (screen.white_pixel % 4294967296)).take 4),
    Request.query_colors Form.plain screen.default_colormap 1 [screen.white_pixel],
    Request.create_cursor Form.plain (w.generate_id 2) (w.generate_id 0) (w.generate_id 0)
      color.red color.green color.blue color.red color.green color.blue 0 0,
    Request.free_gc Form.checked (w.generate_id 1),
    Request.free_pixmap Form.checked (w.generate_id 0),
    Request.change_window_attributes Form.plain screen.root XCB_CW_CURSOR [w.generate_id 2],
    Request.free_cursor Form.checked (w.generate_id 2),
    Request.disconnect ]

/-- The diagnostic that `err_xcb` prints for a request name and an error. -/
def xcb_diagnostic (name : String) (e : xcb_generic_error_t) : Diagnostic :=
  { fn := ErrFn.err
    message := name ++ ": " ++ toString e.minor_code ++ ":" ++ toString e.major_code }

/-- The types of the identifiers in the requests of the core protocol. A
drawable is a window or a pixmap. -/
inductive ResType where
  | pixmap
  | gcontext
  | cursor
  | window
  | colormap
  | drawable
deriving DecidableEq

/-- The identifier that a request frees, with its type. -/
def Request.frees : Request → Option (ResType × Nat)
  | Request.free_gc _ gc => some (ResType.gcontext, gc)
  | Request.free_pixmap _ pixmap => some (ResType.pixmap, pixmap)
  | Request.free_cursor _ cursor => some (ResType.cursor, cursor)
  | _ => none

/-- The identifier that a request creates, with its type. -/
def Request.creates : Request → Option (ResType × Nat)
  | Request.create_pixmap _ _ pid _ _ _ => some (ResType.pixmap, pid)
  | Request.create_gc _ cid _ _ _ => some (ResType.gcontext, cid)
  | Request.create_cursor _ cid _ _ _ _ _ _ _ _ _ _ => some (ResType.cursor, cid)
  | _ => none

/-- Every identifier that a request names, with the type the protocol gives
to the argument. The value list of ChangeWindowAttributes holds a cursor when
the mask is the cursor bit alone. -/
def Request.uses : Request → List (ResType × Nat)
  | Request.create_pixmap _ _ pid drawable _ _ =>
    [(ResType.pixmap, pid), (ResType.drawable, drawable)]
  | Request.create_gc _ cid drawable _ _ => [(ResType.gcontext, cid), (ResType.drawable, drawable)]
  | Request.put_image _ _ drawable gc _ _ _ _ _ _ _ _ =>
    [(ResType.drawable, drawable), (ResType.gcontext, gc)]
  | Request.query_colors _ cmap _ _ => [(ResType.colormap, cmap)]
  | Request.create_cursor _ cid source mask _ _ _ _ _ _ _ _ =>
    [(ResType.cursor, cid), (ResType.pixmap, source), (ResType.pixmap, mask)]
  | Request.free_gc _ gc => [(ResType.gcontext, gc)]
  | Request.free_pixmap _ pixmap => [(ResType.pixmap, pixmap)]
  | Request.change_window_attributes _ window value_mask value_list =>
    (ResType.window, window) ::
      (if value_mask = XCB_CW_CURSOR then value_list.map fun c => (ResType.cursor, c) else [])
  | Request.free_cursor _ cursor => [(ResType.cursor, cursor)]
  | Request.disconnect => []

/-- An argument of a request names the freed resource: the same identifier,
at the type it was freed at, or as a drawable when a pixmap was freed. -/
def names_freed (freed use : ResType × Nat) : Bool :=
  decide (freed.2 = use.2) &&
    (decide (freed.1 = use.1) ||
      (decide (freed.1 = ResType.pixmap) && decide (use.1 = ResType.drawable)))

/-- No request names, at its type, an identifier that an earlier request of
the list has freed. -/
def no_use_after_free (t : List Request) : Prop :=
  t.Pairwise fun a b => ∀ f, a.frees = some f → ∀ u ∈ b.uses, names_freed f u = false

/-- No request holds, at any type, the number of an identifier that an earlier
request of the list has freed. -/
def no_number_after_free (t : List Request) : Prop :=
  t.Pairwise fun a b => ∀ f, a.frees = some f → ∀ u ∈ b.uses, f.2 ≠ u.2

/-- The contract of `xcb_generate_id`: the identifiers it hands out differ
from one another and from those of the screen. -/
def World.fresh_ids (w : World) : Prop :=
  (∀ m n, m ≠ n → w.generate_id m ≠ w.generate_id n) ∧
  ∀ screen, w.aux_get_screen w.default_screen = some screen →
    ∀ n, w.generate_id n ≠ screen.root ∧ w.generate_id n ≠ screen.default_colormap

/-! ## The delivery rule of libxcb -/

/-- What libxcb hands to `xcb_request_check` for a cookie, given the requests
sent on the connection and the error, if any, that the server sends back for
each of them (`xcb.h`, `xproto.h`): the error of a request is kept for
`xcb_request_check` only when the request was issued through its `_checked`
entry point; the error of a request issued through the plain entry point is
put on the event queue, and `xcb_request_check` returns a null pointer. -/
def libxcb_request_check (sent : List Request)
    (server_error : Nat → Option xcb_generic_error_t) (cookie : Nat) :
    Option xcb_generic_error_t :=
  match cookie with
  | 0 => none
  | k + 1 =>
    match sent[k]? with
    | some r => if r.form = some Form.checked then server_error (k + 1) else none
    | none => none

/-- The world is the one libxcb presents to the program over a server that
answers the `k`-th request of the run with `server_error k`. -/
def World.served_by (w : World) (server_error : Nat → Option xcb_generic_error_t) : Prop :=
  ∀ k, w.request_check k = libxcb_request_check (trace w) server_error k

/-- The server that rejects the request with sequence number `k` with the
error `e` and accepts every other request. -/
def server_rejects (k : Nat) (e : xcb_generic_error_t) : Nat → Option xcb_generic_error_t :=
  fun j => if j = k then some e else none

/-! ## Sample worlds -/

/-- A run in which nothing fails. -/
def w_ok : World :=
  { connection_has_error := false
    default_screen := 0
    aux_get_screen := fun _ => some { root := 100, default_colormap := 200, white_pixel := 7 }
    getenv_DISPLAY := some ":0"
    generate_id := fun n => 1000 + n
    request_check := fun _ => none
    query_colors_reply := fun _ =>
      (some { colors := [{ red := 65535, green := 65535, blue := 65535 }] }, none)
    big_endian := false }

/-- What libxcb presents when the server rejects a request that the program
issues through a plain entry point: the error goes to the event queue and
`xcb_request_check` returns a null pointer for every cookie it is asked
about. -/
def w_plain_rejected : World :=
  { w_ok with request_check := fun _ => none }

/-- The server rejects FreeGC (6th request) and FreePixmap (7th request): the
errors wait for an `xcb_request_check` on their cookies. -/
def w_free_rejected : World :=
  { w_ok with
    request_check := fun k =>
      if k = 6 then some { major_code := 60, minor_code := 0 }
      else if k = 7 then some { major_code := 54, minor_code := 0 }
      else none }

/-- The reply to QueryColors cannot be retrieved and no error object is set,
as when the connection breaks while waiting. -/
def w_no_reply : World :=
  { w_ok with query_colors_reply := fun _ => (none, none) }


/-! ## Auxiliary facts -/

@[simp]
theorem Step.sequence_connect : Step.connect.sequence = 0 := rfl

@[simp]
theorem Step.sequence_screen_lookup : Step.screen_lookup.sequence = 0 := rfl

@[simp]
theorem Step.sequence_create_pixmap : Step.create_pixmap.sequence = 1 := rfl

@[simp]
theorem Step.sequence_create_gc : Step.create_gc.sequence = 2 := rfl

@[simp]
theorem Step.sequence_put_image : Step.put_image.sequence = 3 := rfl

@[simp]
theorem Step.sequence_query_colors : Step.query_colors.sequence = 4 := rfl

@[simp]
theorem Step.sequence_create_cursor : Step.create_cursor.sequence = 5 := rfl

@[simp]
theorem Step.sequence_change_window_attributes :
    Step.change_window_attributes.sequence = 8 := rfl

/-- What the success of the colour query gives the program. -/
theorem query_colors_succeeds_iff (w : World) :
    Step.query_colors.succeeds w = true ↔
      ∃ rep color rest, w.query_colors_reply 4 = (some rep, none) ∧
        rep.colors = color :: rest := by
  constructor
  · intro h
    rcases hq : w.query_colors_reply 4 with ⟨_ | rep, _ | e⟩ <;>
      simp [Step.succeeds, Step.error, hq] at h
    rcases hcol : rep.colors with _ | ⟨color, rest⟩
    · simp [hcol] at h
    · exact ⟨rep, color, rest, rfl, hcol⟩
  · rintro ⟨rep, color, rest, hq, hcol⟩
    simp [Step.succeeds, Step.error, hq, hcol]

/-- A run without failure sends the whole of `full_trace` and returns 0. -/
theorem main_of_all_succeed (w : World) (h : w.all_succeed) :
    ∃ screen rep color rest,
      w.aux_get_screen w.default_screen = some screen ∧
      w.query_colors_reply 4 = (some rep, none) ∧ rep.colors = color :: rest ∧
      main w = Res.ret 0 { sent := full_trace w screen color, ids := 3 } := by
  have hc := h Step.connect
  have hs := h Step.screen_lookup
  have h1 := h Step.create_pixmap
  have h2 := h Step.create_gc
  have h3 := h Step.put_image
  have h5 := h Step.create_cursor
  have h8 := h Step.change_window_attributes
  obtain ⟨rep, color, rest, hq, hcol⟩ := (query_colors_succeeds_iff w).mp (h Step.query_colors)
  simp [Step.succeeds, Step.error] at hc h1 h2 h3 h5 h8
  obtain ⟨screen, hscreen⟩ := Option.isSome_iff_exists.mp hs
  refine ⟨screen, rep, color, rest, hscreen, hq, hcol, ?_⟩
  simp [main, hc, hscreen, h1, h2, h3, hq, hcol, h5, h8, full_trace]

/-- The run in which step `s` is the first to fail: the process exits with
status 1 when the requests up to that of `s` are sent, and the diagnostic for
an error object is the one `err_xcb` builds. -/
theorem main_of_first_to_fail (w : World) (s : Step) (h : s.first_to_fail w) :
    ∃ screen color d n,
      main w = Res.halt (Outcome.exit 1 (some d))
        { sent := (full_trace w screen color).take s.sequence, ids := n } ∧
      ∀ e name, s.error w = some e → s.request_name = some name →
        d = xcb_diagnostic name e := by
  obtain ⟨hf, hb⟩ := h
  have hc := hb Step.connect
  have hs := hb Step.screen_lookup
  have h1 := hb Step.create_pixmap
  have h2 := hb Step.create_gc
  have h3 := hb Step.put_image
  have h4 := fun hlt => (query_colors_succeeds_iff w).mp (hb Step.query_colors hlt)
  have h5 := hb Step.create_cursor
  cases s <;>
    simp [Step.index, Step.succeeds, Step.fails, Step.error,
      Option.isSome_iff_exists] at hf hc hs h1 h2 h3 h4 h5
  · exact ⟨⟨0, 0, 0⟩, ⟨0, 0, 0⟩, _, 0, by simp [main, hf]; rfl,
      by simp [Step.request_name]⟩
  · exact ⟨⟨0, 0, 0⟩, ⟨0, 0, 0⟩, _, 0, by simp [main, hf, hc]; rfl,
      by simp [Step.request_name]⟩
  · obtain ⟨screen, hs⟩ := hs
    obtain ⟨e, he⟩ := hf
    refine ⟨screen, ⟨0, 0, 0⟩, xcb_diagnostic "xcb_create_pixmap" e, 1, ?_, ?_⟩
    · simp [main, hc, hs, he, full_trace, xcb_diagnostic]
    · simp [Step.error, Step.request_name, he]
  · obtain ⟨screen, hs⟩ := hs
    obtain ⟨e, he⟩ := hf
    refine ⟨screen, ⟨0, 0, 0⟩, xcb_diagnostic "xcb_create_gc" e, 2, ?_, ?_⟩
    · simp [main, hc, hs, h1, he, full_trace, xcb_diagnostic]
    · simp [Step.error, Step.request_name, he]
  · obtain ⟨screen, hs⟩ := hs
    obtain ⟨e, he⟩ := hf
    refine ⟨screen, ⟨0, 0, 0⟩, xcb_diagnostic "xcb_put_image" e, 2, ?_, ?_⟩
    · simp [main, hc, hs, h1, h2, he, full_trace, xcb_diagnostic]
    · simp [Step.error, Step.request_name, he]
  · obtain ⟨screen, hs⟩ := hs
    obtain ⟨e, he⟩ := hf
    refine ⟨screen, ⟨0, 0, 0⟩, xcb_diagnostic "xcb_query_colors" e, 2, ?_, ?_⟩
    · simp [main, hc, hs, h1, h2, h3, he, full_trace, xcb_diagnostic]
    · simp [Step.error, Step.request_name, he]
  · obtain ⟨screen, hs⟩ := hs
    obtain ⟨e, he⟩ := hf
    obtain ⟨rep, hq, color, rest, hcol⟩ := h4
    refine ⟨screen, color, xcb_diagnostic "xcb_create_cursor" e, 3, ?_, ?_⟩
    · simp [main, hc, hs, h1, h2, h3, hq, hcol, he, full_trace, xcb_diagnostic]
    · simp [Step.error, Step.request_name, he]
  · obtain ⟨screen, hs⟩ := hs
    obtain ⟨e, he⟩ := hf
    obtain ⟨rep, hq, color, rest, hcol⟩ := h4
    refine ⟨screen, color, xcb_diagnostic "xcb_change_window_attributes" e, 3, ?_, ?_⟩
    · simp [main, hc, hs, h1, h2, h3, hq, hcol, h5, he, full_trace, xcb_diagnostic]
    · simp [Step.error, Step.request_name, he]

/-- Every run sends an initial part of `full_trace`, for the screen that the
lookup gave when any request is sent at all. -/
theorem trace_eq_take (w : World) :
    ∃ screen color n, trace w = (full_trace w screen color).take n ∧
      (n = 0 ∨ w.aux_get_screen w.default_screen = some screen) := by
  cases hc : w.connection_has_error
  case true => exact ⟨⟨0, 0, 0⟩, ⟨0, 0, 0⟩, 0, by simp [trace, main, hc], Or.inl rfl⟩
  rcases hs : w.aux_get_screen w.default_screen with _ | screen
  · exact ⟨⟨0, 0, 0⟩, ⟨0, 0, 0⟩, 0, by simp [trace, main, hc, hs], Or.inl rfl⟩
  refine ⟨screen, ?_⟩
  rcases h1 : w.request_check 1 with _ | e
  swap
  · exact ⟨⟨0, 0, 0⟩, 1, by simp [trace, main, hc, hs, h1, full_trace], Or.inr rfl⟩
  rcases h2 : w.request_check 2 with _ | e
  swap
  · exact ⟨⟨0, 0, 0⟩, 2, by simp [trace, main, hc, hs, h1, h2, full_trace], Or.inr rfl⟩
  rcases h3 : w.request_check 3 with _ | e
  swap
  · exact ⟨⟨0, 0, 0⟩, 3, by simp [trace, main, hc, hs, h1, h2, h3, full_trace], Or.inr rfl⟩
  rcases hq : w.query_colors_reply 4 with ⟨rep, _ | e⟩
  swap
  · exact ⟨⟨0, 0, 0⟩, 4, by simp [trace, main, hc, hs, h1, h2, h3, hq, full_trace],
      Or.inr rfl⟩
  rcases rep with _ | rep
  · exact ⟨⟨0, 0, 0⟩, 4, by simp [trace, main, hc, hs, h1, h2, h3, hq, full_trace],
      Or.inr rfl⟩
  rcases hcol : rep.colors with _ | ⟨color, rest⟩
  · exact ⟨⟨0, 0, 0⟩, 4, by simp [trace, main, hc, hs, h1, h2, h3, hq, hcol, full_trace],
      Or.inr rfl⟩
  refine ⟨color, ?_⟩
  rcases h5 : w.request_check 5 with _ | e
  swap
  · exact ⟨5, by simp [trace, main, hc, hs, h1, h2, h3, hq, hcol, h5, full_trace], Or.inr rfl⟩
  rcases h8 : w.request_check 8 with _ | e
  · exact ⟨10, by simp [trace, main, hc, hs, h1, h2, h3, hq, hcol, h5, h8, full_trace],
      Or.inr rfl⟩
  · exact ⟨8, by simp [trace, main, hc, hs, h1, h2, h3, hq, hcol, h5, h8, full_trace],
      Or.inr rfl⟩

theorem full_trace_kinds (w : World) (screen : xcb_screen_t) (color : xcb_rgb_t) :
    (full_trace w screen color).map Request.kind = program_order := by
  simp [full_trace, Request.kind, program_order]

theorem w_ok_all_succeed : w_ok.all_succeed := by
  intro s
  cases s <;> rfl

/-! ## The claims -/

/-- C1. When the connection, the screen lookup and every request succeed, the
process issues create pixmap, create graphics context, put image, query
colors, create cursor, free graphics context, free pixmap, change window
attributes, free cursor and disconnect, in this order and nothing else. -/
theorem request_order_on_success (w : World) (h : w.all_succeed) :
    (trace w).map Request.kind =
      [Kind.create_pixmap, Kind.create_gc, Kind.put_image, Kind.query_colors,
       Kind.create_cursor, Kind.free_gc, Kind.free_pixmap, Kind.change_window_attributes,
       Kind.free_cursor, Kind.disconnect] := by
  obtain ⟨screen, rep, color, rest, -, -, -, hmain⟩ := main_of_all_succeed w h
  simp [trace, hmain, full_trace, Request.kind]

/-- C1 on the run `w_ok`, in which nothing fails. -/
theorem request_order_on_success_witness :
    w_ok.all_succeed ∧
    (trace w_ok).map Request.kind =
      [Kind.create_pixmap, Kind.create_gc, Kind.put_image, Kind.query_colors,
       Kind.create_cursor, Kind.free_gc, Kind.free_pixmap, Kind.change_window_attributes,
       Kind.free_cursor, Kind.disconnect] :=
  ⟨w_ok_all_succeed, request_order_on_success w_ok w_ok_all_succeed⟩

/-- At the level of what libxcb reports to the program: when a step among
connect, screen lookup, create pixmap, create graphics context, put image,
query colors, create cursor and change window attributes is the first for
which a failure is reported (the error flag of the connection, a null screen,
an error object for the request), the process exits with status 1, the
requests issued are exactly those of the successful order up to the request
of that step, and no request of a later step is among them. -/
theorem reported_failure_stops_the_run (w : World) (s : Step) (h : s.first_to_fail w) :
    exit_status w = some 1 ∧
    (trace w).map Request.kind = program_order.take s.sequence ∧
    ∀ t : Step, s.index < t.index → ∀ k, t.kind = some k →
      k ∉ (trace w).map Request.kind := by
  obtain ⟨screen, color, d, n, hmain, -⟩ := main_of_first_to_fail w s h
  have hk : (trace w).map Request.kind = program_order.take s.sequence := by
    simp only [trace, hmain, Res.sent, List.map_take, full_trace_kinds]
  refine ⟨by simp [exit_status, outcome, hmain], hk, ?_⟩
  rw [hk]
  intro t hlt k hkind
  cases s <;> cases t <;>
    simp [Step.index, Step.kind, program_order] at hlt hkind ⊢ <;>
    subst hkind <;> decide

/-- The world `w_plain_rejected` is what libxcb presents over every server
that accepts the three free requests, whatever it answers to the others. -/
theorem w_plain_rejected_served_by (server_error : Nat → Option xcb_generic_error_t)
    (h6 : server_error 6 = none) (h7 : server_error 7 = none)
    (h9 : server_error 9 = none) : w_plain_rejected.served_by server_error := by
  intro k
  have ht : trace w_plain_rejected =
      [Request.create_pixmap Form.plain 1 1000 100 1 1,
       Request.create_gc Form.plain 1001 1000 0 [],
       Request.put_image Form.plain 0 1000 1001 1 1 0 0 0 1 4 [7, 0, 0, 0],
       Request.query_colors Form.plain 200 1 [7],
       Request.create_cursor Form.plain 1002 1000 1000 65535 65535 65535 65535 65535 65535 0 0,
       Request.free_gc Form.checked 1001,
       Request.free_pixmap Form.checked 1000,
       Request.change_window_attributes Form.plain 100 XCB_CW_CURSOR [1002],
       Request.free_cursor Form.checked 1002,
       Request.disconnect] := rfl
  rw [ht]
  match k with
  | 0 | 1 | 2 | 3 | 4 | 5 | 8 | 10 => rfl
  | 6 => simp [libxcb_request_check, Request.form, w_plain_rejected, h6]
  | 7 => simp [libxcb_request_check, Request.form, w_plain_rejected, h7]
  | 9 => simp [libxcb_request_check, Request.form, w_plain_rejected, h9]
  | k + 11 => simp [libxcb_request_check, w_plain_rejected]

/-- C2, the code at the failing input: the server rejects the create-pixmap
request. The request was issued through the plain entry point, so libxcb
hands no error object to `xcb_request_check`; the process goes on to create
the graphics context, issues all ten requests and exits with status 0. -/
theorem rejected_create_pixmap_is_not_noticed :
    server_rejects 1 { major_code := 53, minor_code := 0 } 1 =
      some { major_code := 53, minor_code := 0 } ∧
    w_plain_rejected.served_by (server_rejects 1 { major_code := 53, minor_code := 0 }) ∧
    (trace w_plain_rejected)[0]? = some (Request.create_pixmap Form.plain 1 1000 100 1 1) ∧
    libxcb_request_check (trace w_plain_rejected)
      (server_rejects 1 { major_code := 53, minor_code := 0 }) 1 = none ∧
    (trace w_plain_rejected).map Request.kind =
      [Kind.create_pixmap, Kind.create_gc, Kind.put_image, Kind.query_colors,
       Kind.create_cursor, Kind.free_gc, Kind.free_pixmap, Kind.change_window_attributes,
       Kind.free_cursor, Kind.disconnect] ∧
    outcome w_plain_rejected = Outcome.exit 0 none :=
  ⟨rfl, w_plain_rejected_served_by _ rfl rfl rfl, rfl, rfl, rfl, rfl⟩

theorem uint32_bytes_length (b : Bool) (v : Nat) : (uint32_bytes b v).length = 4 := by
  cases b <;> simp [uint32_bytes]

theorem uint32_bytes_lt (b : Bool) (v : Nat) : ∀ x ∈ uint32_bytes b v, x < 256 := by
  cases b <;> simp [uint32_bytes] <;> omega

theorem uint32_of_bytes_bytes (b : Bool) (v : Nat) (hv : v < 4294967296) :
    uint32_of_bytes b (uint32_bytes b v) = v := by
  cases b <;> simp [uint32_of_bytes, uint32_bytes] <;> omega

/-- C4 as stated fails on a fresh connection with pixmap 1000, graphics
context 1001 and pixel 7: the request that `fill_pixmap` issues is no
put-image request of depth 4. Its depth argument is 1; the 4 is the length of
the data. -/
theorem put_image_depth_is_not_4 :
    ¬ ∃ data, issued_by (xcb_connect w_ok) (fill_pixmap w_ok (xcb_connect w_ok) 1000 1001 7) =
      [Request.put_image Form.plain XCB_IMAGE_FORMAT_XY_BITMAP 1000 1001 1 1 0 0 0 4 4 data] := by
  simp [issued_by, w_ok]

/-- C4, amended. The put-image request of `fill_pixmap` is issued once, on
the given pixmap with the given graphics context, with format XY bitmap,
width 1, height 1, destination (0, 0), left pad 0, depth 1 and data length 4,
the data being four bytes, each below 256, which are the base-256 digits of
the pixel value in the byte order of the host; in `create_null_cursor` the
pixel value is the white pixel of the screen. -/
theorem put_image_request (w : World) (conn : Conn) (pixmap gc pixel : Nat)
    (hpixel : pixel < 4294967296) :
    (∃ data, issued_by conn (fill_pixmap w conn pixmap gc pixel) =
        [Request.put_image Form.plain XCB_IMAGE_FORMAT_XY_BITMAP pixmap gc 1 1 0 0 0 1 4 data] ∧
      data.length = 4 ∧ (∀ b ∈ data, b < 256) ∧
      data = (if w.big_endian
        then [pixel / 16777216 % 256, pixel / 65536 % 256, pixel / 256 % 256, pixel % 256]
        else [pixel % 256, pixel / 256 % 256, pixel / 65536 % 256, pixel / 16777216 % 256]) ∧
      uint32_of_bytes w.big_endian data = pixel) ∧
    ∀ (screen : xcb_screen_t) (conn1 conn2 : Conn),
      create_1x1x1_pixmap w conn screen = Res.ret pixmap conn1 →
      create_gc_for_pixmap w conn1 pixmap = Res.ret gc conn2 →
      (issued_by conn (create_null_cursor w conn screen)).filter
          (fun r => r.kind = Kind.put_image) =
        issued_by conn2 (fill_pixmap w conn2 pixmap gc screen.white_pixel) := by
  constructor
  · refine ⟨uint32_bytes w.big_endian pixel, ?_, uint32_bytes_length _ _,
      uint32_bytes_lt _ _, by cases w.big_endian <;> simp [uint32_bytes],
      uint32_of_bytes_bytes _ _ hpixel⟩
    have h4 : List.take 4 (uint32_bytes w.big_endian pixel) = uint32_bytes w.big_endian pixel :=
      List.take_of_length_le (by rw [uint32_bytes_length])
    have hmod : pixel % 4294967296 = pixel := Nat.mod_eq_of_lt hpixel
    rcases hc : w.request_check (conn.sent.length + 1) with _ | e <;>
      simp [issued_by, hc, h4, hmod]
  · intro screen conn1 conn2 hp hg
    rcases h1 : w.request_check (conn.sent.length + 1) with _ | e <;> simp [h1] at hp
    obtain ⟨rfl, rfl⟩ := hp
    rcases h2 : w.request_check (conn.sent.length + 1 + 1) with _ | e <;> simp [h2] at hg
    obtain ⟨rfl, rfl⟩ := hg
    rcases h3 : w.request_check (conn.sent.length + 1 + 1 + 1) with _ | e
    swap
    · simp [issued_by, h1, h2, h3, Request.kind]
    rcases hq : w.query_colors_reply (conn.sent.length + 1 + 1 + 1 + 1) with ⟨rep, _ | e⟩
    swap
    · simp [issued_by, h1, h2, h3, hq, Request.kind]
    rcases rep with _ | rep
    · simp [issued_by, h1, h2, h3, hq, Request.kind]
    rcases hcol : rep.colors with _ | ⟨color, rest⟩
    · simp [issued_by, h1, h2, h3, hq, hcol, Request.kind]
    rcases h5 : w.request_check (conn.sent.length + 1 + 1 + 1 + 1 + 1) with _ | e <;>
      simp [issued_by, h1, h2, h3, hq, hcol, h5, Request.kind]

/-- C4, amended, on a fresh connection with pixmap 1000, graphics context 1001
and pixel 7. -/
theorem put_image_request_witness :
    7 < 4294967296 ∧
    (∃ data, issued_by (xcb_connect w_ok) (fill_pixmap w_ok (xcb_connect w_ok) 1000 1001 7) =
        [Request.put_image Form.plain XCB_IMAGE_FORMAT_XY_BITMAP 1000 1001 1 1 0 0 0 1 4 data] ∧
      data.length = 4 ∧ (∀ b ∈ data, b < 256) ∧
      data = (if w_ok.big_endian
        then [7 / 16777216 % 256, 7 / 65536 % 256, 7 / 256 % 256, 7 % 256]
        else [7 % 256, 7 / 256 % 256, 7 / 65536 % 256, 7 / 16777216 % 256]) ∧
      uint32_of_bytes w_ok.big_endian data = 7) ∧
    (issued_by (xcb_connect w_ok)
        (create_null_cursor w_ok (xcb_connect w_ok)
          { root := 100, default_colormap := 200, white_pixel := 7 })).filter
        (fun r => r.kind = Kind.put_image) =
      issued_by
        { sent := [Request.create_pixmap Form.plain 1 1000 100 1 1,
                   Request.create_gc Form.plain 1001 1000 0 []], ids := 2 }
        (fill_pixmap w_ok
          { sent := [Request.create_pixmap Form.plain 1 1000 100 1 1,
                     Request.create_gc Form.plain 1001 1000 0 []], ids := 2 }
          1000 1001 7) :=
  have r := put_image_request w_ok (xcb_connect w_ok) 1000 1001 7 (by decide)
  ⟨by decide, r.1,
    r.2 { root := 100, default_colormap := 200, white_pixel := 7 }
      { sent := [Request.create_pixmap Form.plain 1 1000 100 1 1], ids := 1 }
      { sent := [Request.create_pixmap Form.plain 1 1000 100 1 1,
                 Request.create_gc Form.plain 1001 1000 0 []], ids := 2 }
      rfl rfl⟩

/-- The create-cursor request of `create_null_cursor` when the four steps
before it succeed, in terms of what libxcb answers. -/
theorem create_cursor_of_answers (w : World) (conn : Conn) (screen : xcb_screen_t)
    (rep : xcb_query_colors_reply_t) (color : xcb_rgb_t) (rest : List xcb_rgb_t)
    (h1 : w.request_check (conn.sent.length + 1) = none)
    (h2 : w.request_check (conn.sent.length + 1 + 1) = none)
    (h3 : w.request_check (conn.sent.length + 1 + 1 + 1) = none)
    (hq : w.query_colors_reply (conn.sent.length + 1 + 1 + 1 + 1) = (some rep, none))
    (hcol : rep.colors = color :: rest) :
    (issued_by conn (create_null_cursor w conn screen)).filter
        (fun r => r.kind = Kind.create_cursor) =
      [Request.create_cursor Form.plain (w.generate_id (conn.ids + 1 + 1))
        (w.generate_id conn.ids) (w.generate_id conn.ids)
        color.red color.green color.blue color.red color.green color.blue 0 0] := by
  rcases h5 : w.request_check (conn.sent.length + 1 + 1 + 1 + 1 + 1) with _ | e <;>
    simp [issued_by, h1, h2, h3, hq, hcol, h5, Request.kind]

/-- C3. When the pixmap allocator returns `pixmap` and the colour query
returns `color`, the create-cursor request of `create_null_cursor` has source
and mask `pixmap`, foreground and background `color` and hotspot (0, 0); and
it is the same request whatever white pixel the screen has, that is whatever
pixel value the fill step writes. -/
theorem create_cursor_request (w : World) (conn conn1 conn2 conn3 conn4 : Conn)
    (screen : xcb_screen_t) (pixmap gc : Nat) (color : xcb_rgb_t)
    (hpixmap : create_1x1x1_pixmap w conn screen = Res.ret pixmap conn1)
    (hgc : create_gc_for_pixmap w conn1 pixmap = Res.ret gc conn2)
    (hfill : fill_pixmap w conn2 pixmap gc screen.white_pixel = Res.ret () conn3)
    (hcolor : query_white_color w conn3 screen = Res.ret color conn4) :
    (issued_by conn (create_null_cursor w conn screen)).filter
        (fun r => r.kind = Kind.create_cursor) =
      [Request.create_cursor Form.plain (w.generate_id conn4.ids) pixmap pixmap
        color.red color.green color.blue color.red color.green color.blue 0 0] ∧
    ∀ pixel : Nat,
      (issued_by conn (create_null_cursor w conn { screen with white_pixel := pixel })).filter
          (fun r => r.kind = Kind.create_cursor) =
        [Request.create_cursor Form.plain (w.generate_id conn4.ids) pixmap pixmap
          color.red color.green color.blue color.red color.green color.blue 0 0] := by
  rcases h1 : w.request_check (conn.sent.length + 1) with _ | e <;> simp [h1] at hpixmap
  obtain ⟨rfl, rfl⟩ := hpixmap
  rcases h2 : w.request_check (conn.sent.length + 1 + 1) with _ | e <;> simp [h2] at hgc
  obtain ⟨rfl, rfl⟩ := hgc
  rcases h3 : w.request_check (conn.sent.length + 1 + 1 + 1) with _ | e <;>
    simp [h3] at hfill
  subst hfill
  rcases hq : w.query_colors_reply (conn.sent.length + 1 + 1 + 1 + 1) with ⟨_ | rep, _ | e⟩ <;>
    simp [hq] at hcolor
  rcases hcol : rep.colors with _ | ⟨c, rest⟩ <;> simp [hcol] at hcolor
  obtain ⟨rfl, rfl⟩ := hcolor
  exact ⟨create_cursor_of_answers w conn screen rep c rest h1 h2 h3 hq hcol,
    fun pixel => create_cursor_of_answers w conn _ rep c rest h1 h2 h3 hq hcol⟩

/-- C3 on the run `w_ok`, for the white pixels 7 and 99. -/
theorem create_cursor_request_witness :
    (issued_by (xcb_connect w_ok)
        (create_null_cursor w_ok (xcb_connect w_ok)
          { root := 100, default_colormap := 200, white_pixel := 7 })).filter
        (fun r => r.kind = Kind.create_cursor) =
      [Request.create_cursor Form.plain 1002 1000 1000 65535 65535 65535 65535 65535 65535 0 0] ∧
    (issued_by (xcb_connect w_ok)
        (create_null_cursor w_ok (xcb_connect w_ok)
          { root := 100, default_colormap := 200, white_pixel := 99 })).filter
        (fun r => r.kind = Kind.create_cursor) =
      [Request.create_cursor Form.plain 1002 1000 1000 65535 65535 65535 65535 65535 65535 0 0] :=
  have r := create_cursor_request w_ok (xcb_connect w_ok)
    { sent := [Request.create_pixmap Form.plain 1 1000 100 1 1], ids := 1 }
    { sent := [Request.create_pixmap Form.plain 1 1000 100 1 1,
               Request.create_gc Form.plain 1001 1000 0 []], ids := 2 }
    { sent := [Request.create_pixmap Form.plain 1 1000 100 1 1,
               Request.create_gc Form.plain 1001 1000 0 [],
               Request.put_image Form.plain 0 1000 1001 1 1 0 0 0 1 4 [7, 0, 0, 0]], ids := 2 }
    { sent := [Request.create_pixmap Form.plain 1 1000 100 1 1,
               Request.create_gc Form.plain 1001 1000 0 [],
               Request.put_image Form.plain 0 1000 1001 1 1 0 0 0 1 4 [7, 0, 0, 0],
               Request.query_colors Form.plain 200 1 [7]], ids := 2 }
    { root := 100, default_colormap := 200, white_pixel := 7 } 1000 1001
    { red := 65535, green := 65535, blue := 65535 } rfl rfl rfl rfl
  ⟨r.1, r.2 99⟩

/-- When `create_null_cursor` returns on a fresh connection, it has sent no
free-cursor request. -/
theorem create_null_cursor_sent (w : World) (screen : xcb_screen_t) (cursor : Nat)
    (conn : Conn) (h : create_null_cursor w (xcb_connect w) screen = Res.ret cursor conn) :
    ∃ color, conn.sent = (full_trace w screen color).take 7 ∧ cursor = w.generate_id 2 := by
  rcases h1 : w.request_check 1 with _ | e <;> simp [h1] at h
  rcases h2 : w.request_check 2 with _ | e <;> simp [h2] at h
  rcases h3 : w.request_check 3 with _ | e <;> simp [h3] at h
  rcases hq : w.query_colors_reply 4 with ⟨_ | rep, _ | e⟩ <;> simp [hq] at h
  rcases hcol : rep.colors with _ | ⟨c, rest⟩ <;> simp [hcol] at h
  rcases h5 : w.request_check 5 with _ | e <;> simp [h5] at h
  obtain ⟨rfl, rfl⟩ := h
  exact ⟨c, by simp [full_trace], rfl⟩

/-- At the level of what libxcb reports to the program: the function
`set_root_cursor` issues one request, a change of
window attributes on the root window of the screen whose mask is the cursor
bit (bit 14) alone and whose value list is the cursor identifier. When `main`
calls it with the cursor that `create_null_cursor` returned, an error object
for the request makes the process exit with status 1 after that request, and
otherwise the process goes on with one free-cursor request for the same
cursor, disconnects and exits with status 0. -/
theorem set_root_cursor_sends (w : World) (conn : Conn) (screen : xcb_screen_t)
    (cursor : Nat) :
    issued_by conn (set_root_cursor w conn screen cursor) =
      [Request.change_window_attributes Form.plain screen.root XCB_CW_CURSOR [cursor]] ∧
    (∀ i, XCB_CW_CURSOR.testBit i = true ↔ i = 14) ∧
    (w.connection_has_error = false →
      w.aux_get_screen w.default_screen = some screen →
      create_null_cursor w (xcb_connect w) screen = Res.ret cursor conn →
      (∀ e, xcb_request_check w conn (conn.sent.length + 1) = some e →
        exit_status w = some 1 ∧
        trace w = conn.sent ++
          [Request.change_window_attributes Form.plain screen.root XCB_CW_CURSOR [cursor]]) ∧
      (xcb_request_check w conn (conn.sent.length + 1) = none →
        exit_status w = some 0 ∧
        trace w = conn.sent ++
          [Request.change_window_attributes Form.plain screen.root XCB_CW_CURSOR [cursor],
           Request.free_cursor Form.checked cursor, Request.disconnect] ∧
        (trace w).filter (fun r => r.kind = Kind.free_cursor) =
          [Request.free_cursor Form.checked cursor])) := by
  refine ⟨?_, ?_, ?_⟩
  · rcases h : w.request_check (conn.sent.length + 1) with _ | e <;> simp [issued_by, h]
  · intro i
    have h : XCB_CW_CURSOR = 2 ^ 14 := rfl
    rw [h, Nat.testBit_two_pow]
    simp [eq_comm]
  · intro hc hs hcursor
    have hmain : main w =
        (set_root_cursor w conn screen cursor).bind fun _ conn =>
          Res.ret 0 (xcb_disconnect (xcb_free_cursor_checked conn cursor).2) := by
      simp only [main, hc, hs, hcursor, Res.bind, Bool.false_eq_true, if_false]
    constructor
    · intro e he
      simp only [xcb_request_check] at he
      simp [exit_status, outcome, trace, hmain, he]
    · intro he
      simp only [xcb_request_check] at he
      obtain ⟨color, hsent, -⟩ := create_null_cursor_sent w screen cursor conn hcursor
      have htrace : trace w = conn.sent ++
          [Request.change_window_attributes Form.plain screen.root XCB_CW_CURSOR [cursor],
           Request.free_cursor Form.checked cursor, Request.disconnect] := by
        simp [trace, hmain, he]
      refine ⟨by simp [exit_status, outcome, hmain, he], htrace, ?_⟩
      rw [htrace, hsent]
      simp [full_trace, Request.kind]

/-- C8, the code at the failing input: the server rejects the change of
window attributes, the eighth request. The request was issued through the
plain entry point, so libxcb hands no error object to `xcb_request_check`;
the process frees the cursor, disconnects and exits with status 0. -/
theorem rejected_attribute_change_is_not_noticed :
    server_rejects 8 { major_code := 2, minor_code := 0 } 8 =
      some { major_code := 2, minor_code := 0 } ∧
    w_plain_rejected.served_by (server_rejects 8 { major_code := 2, minor_code := 0 }) ∧
    (trace w_plain_rejected)[7]? =
      some (Request.change_window_attributes Form.plain 100 XCB_CW_CURSOR [1002]) ∧
    libxcb_request_check (trace w_plain_rejected)
      (server_rejects 8 { major_code := 2, minor_code := 0 }) 8 = none ∧
    (trace w_plain_rejected).drop 8 =
      [Request.free_cursor Form.checked 1002, Request.disconnect] ∧
    outcome w_plain_rejected = Outcome.exit 0 none :=
  ⟨rfl, w_plain_rejected_served_by _ rfl rfl rfl, rfl, rfl, rfl, rfl⟩

theorem w_ok_fresh_ids : w_ok.fresh_ids := by
  refine ⟨fun m n hmn => ?_, fun screen hs n => ?_⟩
  · simp only [w_ok]
    omega
  · simp only [w_ok, Option.some.injEq] at hs ⊢
    subst hs
    constructor <;> simp only <;> omega

/-- C7. In every run no request names an identifier, at the type of its
argument, after a request that frees it; when the identifiers that
`xcb_generate_id` hands out are fresh, no request after a free holds the
freed number at all; and a run without failure creates one pixmap, one
graphics context and one cursor and issues one free request for each, so that
the pixmap and the graphics context are both freed once. -/
theorem resource_lifetimes (w : World) :
    no_use_after_free (trace w) ∧
    (w.fresh_ids → no_number_after_free (trace w)) ∧
    (w.all_succeed →
      (trace w).filterMap Request.creates =
        [(ResType.pixmap, w.generate_id 0), (ResType.gcontext, w.generate_id 1),
         (ResType.cursor, w.generate_id 2)] ∧
      (trace w).filterMap Request.frees =
        [(ResType.gcontext, w.generate_id 1), (ResType.pixmap, w.generate_id 0),
         (ResType.cursor, w.generate_id 2)]) := by
  obtain ⟨screen, color, n, htrace, hscreen⟩ := trace_eq_take w
  refine ⟨?_, ?_, ?_⟩
  · rw [htrace]
    refine List.Pairwise.sublist (List.take_sublist _ _) ?_
    simp [full_trace, Request.frees, Request.uses, names_freed]
    constructor <;> rintro a b (⟨rfl, rfl⟩ | ⟨rfl, rfl⟩) <;> simp
  · intro hfresh
    rw [htrace]
    rcases hscreen with rfl | hscreen
    · simp [no_number_after_free]
    obtain ⟨hinj, hroot⟩ := hfresh
    have h10 := hinj 1 0 (by decide)
    have h12 := hinj 1 2 (by decide)
    have h02 := hinj 0 2 (by decide)
    have hr0 := (hroot screen hscreen 0).1
    have hr1 := (hroot screen hscreen 1).1
    refine List.Pairwise.sublist (List.take_sublist _ _) ?_
    simp [full_trace, Request.frees, Request.uses, h10, h12, h02, hr0, hr1]
    constructor <;> rintro a b (⟨rfl, rfl⟩ | ⟨rfl, rfl⟩) <;> assumption
  · intro h
    obtain ⟨screen, rep, color, rest, -, -, -, hmain⟩ := main_of_all_succeed w h
    simp [trace, hmain, full_trace, Request.creates, Request.frees]

/-- C7 on the run `w_ok`, whose identifiers are fresh. -/
theorem resource_lifetimes_witness :
    no_number_after_free (trace w_ok) ∧
    (trace w_ok).filterMap Request.creates =
      [(ResType.pixmap, w_ok.generate_id 0), (ResType.gcontext, w_ok.generate_id 1),
       (ResType.cursor, w_ok.generate_id 2)] ∧
    (trace w_ok).filterMap Request.frees =
      [(ResType.gcontext, w_ok.generate_id 1), (ResType.pixmap, w_ok.generate_id 0),
       (ResType.cursor, w_ok.generate_id 2)] :=
  ⟨(resource_lifetimes w_ok).2.1 w_ok_fresh_ids, (resource_lifetimes w_ok).2.2 w_ok_all_succeed⟩

/-- C5, the code at the failing input: the server rejects the free requests
for the graphics context and the pixmap, and the process still changes the
window attributes and exits with status 0. -/
theorem free_rejections_are_ignored :
    w_free_rejected.request_check 6 = some { major_code := 60, minor_code := 0 } ∧
    w_free_rejected.request_check 7 = some { major_code := 54, minor_code := 0 } ∧
    (trace w_free_rejected).map Request.kind =
      [Kind.create_pixmap, Kind.create_gc, Kind.put_image, Kind.query_colors,
       Kind.create_cursor, Kind.free_gc, Kind.free_pixmap, Kind.change_window_attributes,
       Kind.free_cursor, Kind.disconnect] ∧
    outcome w_free_rejected = Outcome.exit 0 none := by
  refine ⟨rfl, rfl, rfl, rfl⟩

/-- C6, the code at the failing input: no reply and no error object come back
for the colour query, and the process reads the first colour through the null
reply pointer instead of exiting with status 1. -/
theorem absent_reply_is_read :
    w_no_reply.query_colors_reply 4 = (none, none) ∧
    outcome w_no_reply = Outcome.invalid_read ∧
    exit_status w_no_reply = none ∧
    (trace w_no_reply).map Request.kind =
      [Kind.create_pixmap, Kind.create_gc, Kind.put_image, Kind.query_colors] := by
  refine ⟨rfl, rfl, rfl, rfl⟩

/-- C10, the code on a run without failure: the five requests whose cookies
go to `xcb_request_check` are issued through the plain entry points, and the
three free requests, whose cookies are dropped, through the checked ones. -/
theorem forms_of_the_requests :
    (trace w_ok).map (fun r => (r.kind, r.form)) =
      [(Kind.create_pixmap, some Form.plain), (Kind.create_gc, some Form.plain),
       (Kind.put_image, some Form.plain), (Kind.query_colors, some Form.plain),
       (Kind.create_cursor, some Form.plain), (Kind.free_gc, some Form.checked),
       (Kind.free_pixmap, some Form.checked),
       (Kind.change_window_attributes, some Form.plain),
       (Kind.free_cursor, some Form.checked), (Kind.disconnect, none)] := by
  rfl

end Nullcursor
